import Mathlib

/-!
Shallow embedding of the NovaFund blockchain event indexer
(backend/src/indexer): the ledger cursor tracker
(ledger-tracker.service.ts), the event handler registry
(event-handler.service.ts) and the poll orchestrator / fetcher / decoder
(indexer.service.ts).

Modelling conventions:
* JavaScript numbers holding ledger sequences, amounts and timestamps are
  modelled as `Int` (all arithmetic in the source is integer-valued).
* JavaScript `Date` values are modelled opaquely by the data they were
  constructed from (`Int` for epoch-style values, the source string for
  `new Date(string)`), since no claim inspects a date beyond propagation.
* Nullable / optional fields become `Option`; JavaScript truthiness on
  strings (`!s`) is falsiness of `none` and of the empty string, and on
  numbers it is falsiness of `none` and of `0`.
* Prisma tables become lists of row structures inside a single `Db`
  state record; the service is configured for one fixed network, so the
  `LedgerCursor` table (unique per network) is a single `Option CursorRow`.
* Fallible code (thrown exceptions) returns the mutated state together
  with an `Option String` error, because a thrown JavaScript exception
  does not roll back database writes already awaited.
-/

/-- Ledger info reported by the remote RPC (`LedgerInfo` in
ledger.types.ts); only the fields read by `detectReorg` are modelled. -/
structure LedgerInfo where
  sequence : Int
  hash : String
  deriving Repr, DecidableEq

/-- Result record of `detectReorg` (`ReorgDetectionResult`). -/
structure ReorgDetectionResult where
  hasReorg : Bool
  reorgDepth : Int
  lastValidLedger : Int
  newLatestLedger : Int
  deriving Repr, DecidableEq

/-- A row of the `LedgerCursor` table (one per network). -/
structure CursorRow where
  network : String
  lastLedgerSeq : Int
  lastLedgerHash : Option String
  deriving Repr, DecidableEq

/-- A row of the `ProcessedEvent` dedup table. -/
structure ProcessedEventRow where
  eventId : String
  network : String
  ledgerSeq : Int
  contractId : String
  eventType : String
  transactionHash : String
  deriving Repr, DecidableEq

/-- A row of the `User` table; the generated primary key is modelled by a
deterministic tag on the unique wallet address. -/
structure UserRow where
  id : String
  walletAddress : String
  reputationScore : Int
  deriving Repr, DecidableEq

/-- A row of the `Project` table. -/
structure ProjectRow where
  id : String
  contractId : String
  creatorId : String
  title : String
  category : String
  goal : Int
  deadline : Int
  status : String
  currentFunds : Int
  deriving Repr, DecidableEq

/-- A row of the `Contribution` table (unique by transaction hash). -/
structure ContributionRow where
  transactionHash : String
  investorId : String
  projectId : String
  amount : Int
  timestamp : String
  deriving Repr, DecidableEq

/-- A row of the `Milestone` table. -/
structure MilestoneRow where
  id : String
  projectId : String
  status : String
  completionDate : Option String
  deriving Repr, DecidableEq

/-- The persistent store as seen by the indexer: the domain tables, the
dedup ledger and the cursor row of the configured network. -/
structure Db where
  users : List UserRow
  projects : List ProjectRow
  contributions : List ContributionRow
  milestones : List MilestoneRow
  processedEvents : List ProcessedEventRow
  cursor : Option CursorRow
  deriving Repr, DecidableEq

/-- JavaScript `x || undefined` / `x || null` on an optional string:
the empty string is falsy and collapses to absent. -/
def normHash : Option String → Option String
  | some "" => none
  | h => h

/-- `getLastCursor` (ledger-tracker.service.ts:27): reads the cursor row
of the configured network and maps `lastLedgerHash || undefined`. -/
def getLastCursor (db : Db) : Option CursorRow :=
  db.cursor.map (fun c => { c with lastLedgerHash := normHash c.lastLedgerHash })

/-- `initializeCursor` (ledger-tracker.service.ts:51): upsert of the
cursor row at `startLedger` with a null hash; both the update and the
create branch produce the same observable row. -/
def initializeCursor (network : String) (db : Db) (startLedger : Int) : Db :=
  { db with cursor := some ⟨network, startLedger, none⟩ }

/-- `updateCursor` (ledger-tracker.service.ts:82): prisma `update` on the
network's cursor row, storing `ledgerHash || null`.  A prisma `update` on
a missing row raises; that path is modelled as the identity on the
cursor, and every claim about the updated cursor is stated under a
cursor-present hypothesis. -/
def updateCursor (db : Db) (ledgerSeq : Int) (ledgerHash : Option String) : Db :=
  { db with cursor := (db.cursor.map
      (fun c => { c with lastLedgerSeq := ledgerSeq, lastLedgerHash := normHash ledgerHash })) }

/-- `detectReorg` (ledger-tracker.service.ts:101): classifies the remote
ledger report against the stored cursor. -/
def detectReorg (db : Db) (currentLedger : LedgerInfo) : ReorgDetectionResult :=
  match getLastCursor db with
  | none =>
      ⟨false, 0, currentLedger.sequence - 1, currentLedger.sequence⟩
  | some c =>
      match c.lastLedgerHash with
      | none =>
          ⟨false, 0, currentLedger.sequence - 1, currentLedger.sequence⟩
      | some storedHash =>
          if currentLedger.sequence = c.lastLedgerSeq then
            let hasReorg := currentLedger.hash ≠ storedHash
            ⟨hasReorg, if hasReorg then 1 else 0,
             if hasReorg then currentLedger.sequence - 1 else currentLedger.sequence,
             currentLedger.sequence⟩
          else if currentLedger.sequence > c.lastLedgerSeq then
            ⟨false, 0, c.lastLedgerSeq, currentLedger.sequence⟩
          else
            ⟨true, c.lastLedgerSeq - currentLedger.sequence,
             currentLedger.sequence, currentLedger.sequence⟩

/-- `handleReorg` (ledger-tracker.service.ts:161): on a detected reorg,
rolls the store back to a safe ledger and returns it; otherwise returns
the new latest ledger untouched. -/
def handleReorg (network : String) (reorgDepthThreshold : Int) (db : Db)
    (reorgResult : ReorgDetectionResult) : Db × Int :=
  if !reorgResult.hasReorg then
    (db, reorgResult.newLatestLedger)
  else
    let rollbackDepth := min (reorgResult.reorgDepth + 2) reorgDepthThreshold
    let safeLedgerSeq := max 0 (reorgResult.lastValidLedger - rollbackDepth)
    let db1 := { db with processedEvents := (db.processedEvents.filter
        (fun e => !(e.network = network ∧ e.ledgerSeq > safeLedgerSeq : Bool))) }
    (updateCursor db1 safeLedgerSeq none, safeLedgerSeq)

/-- `isEventProcessed` (ledger-tracker.service.ts:204): count of dedup
rows matching the event id and network, compared with zero. -/
def isEventProcessed (network : String) (db : Db) (eventId : String) : Bool :=
  0 < (db.processedEvents.countP (fun e => e.eventId = eventId ∧ e.network = network))

/-- `markEventProcessed` (ledger-tracker.service.ts:223): upsert on the
globally unique `eventId`, with an empty update clause. -/
def markEventProcessed (network : String) (db : Db) (eventId : String)
    (ledgerSeq : Int) (contractId : String) (eventType : String)
    (transactionHash : String) : Db :=
  if db.processedEvents.any (fun e => e.eventId = eventId) then
    db
  else
    { db with processedEvents := db.processedEvents ++
        [⟨eventId, network, ledgerSeq, contractId, eventType, transactionHash⟩] }

/-- `getStartLedger` (ledger-tracker.service.ts:250): resume after the
cursor when one exists; otherwise honour `INDEXER_START_LEDGER` when it
is truthy (a configured value of 0 is falsy in JavaScript and falls
through to the latest-ledger default). -/
def getStartLedger (network : String) (configuredStart : Option Int) (db : Db)
    (latestLedger : Int) : Db × Int :=
  match getLastCursor db with
  | some c => (db, c.lastLedgerSeq + 1)
  | none =>
      match configuredStart with
      | some s =>
          if s ≠ 0 then (initializeCursor network db (s - 1), s)
          else (initializeCursor network db (latestLedger - 1), latestLedger)
      | none => (initializeCursor network db (latestLedger - 1), latestLedger)

/-- Raw wire event (`SorobanEvent` in event-types.ts), as produced by
`transformRpcEvent`. -/
structure SorobanEvent where
  type : String
  ledger : Int
  ledgerClosedAt : String
  contractId : String
  id : String
  pagingToken : String
  topic : List String
  value : String
  inSuccessfulContractCall : Bool
  txHash : String
  deriving Repr, DecidableEq

/-- The open `Record<string, unknown>` carried by a parsed event, with
the fields any registered handler reads (event-types.ts interfaces
`ProjectCreatedEvent`, `ContributionMadeEvent`, `MilestoneApprovedEvent`,
`FundsReleasedEvent`, `ProjectStatusEvent`) plus the passthrough fields
written by `parseEventData`.  An absent key is `none`. -/
structure EventData where
  rawXdr : Option String := none
  eventTypeField : Option String := none
  projectId : Option Int := none
  creator : Option String := none
  fundingGoal : Option String := none
  deadline : Option Int := none
  token : Option String := none
  contributor : Option String := none
  amount : Option String := none
  totalRaised : Option String := none
  milestoneId : Option Int := none
  approvalCount : Option Int := none
  statusField : Option String := none
  deriving Repr, DecidableEq

/-- Typed event after decoding (`ParsedContractEvent`); `eventType` holds
one of the `ContractEventType` enum values, `ledgerClosedAt` is the
`Date` modelled by its source string. -/
structure ParsedContractEvent where
  eventId : String
  ledgerSeq : Int
  ledgerClosedAt : String
  contractId : String
  eventType : String
  transactionHash : String
  data : EventData
  inSuccessfulContractCall : Bool
  deriving Repr, DecidableEq

/-- `Object.values(ContractEventType)` (event-types.ts): the fixed
vocabulary of event-type tags, in declaration order. -/
def contractEventTypeValues : List String :=
  ["proj_new", "proj_fund", "proj_done", "proj_fail",
   "contrib", "refund",
   "esc_init", "lock", "release", "m_create", "m_submit", "m_apprv",
   "m_reject", "milestone", "v_update",
   "profit", "claim",
   "proposal", "vote", "execute",
   "user_reg", "rep_up", "badge",
   "pay_setup", "pay_recv", "pay_withd",
   "subscr", "sub_cancl", "sub_mod", "sub_pause", "sub_resum",
   "pay_fail", "deposit",
   "br_init", "chain_add", "chain_rem", "wrap", "unwrap", "br_dep",
   "br_wdraw", "br_pause", "br_res", "rel_add", "rel_rem", "tx_conf",
   "tx_fail",
   "esc_pause", "esc_resum", "upg_sched", "upg_exec", "upg_canc"]

/-- `parseEventType` (indexer.service.ts:403): exact match of the topic
symbol against the enum values; no match yields null (every enum value
is a non-empty string, so the trailing `|| null` never fires on a hit). -/
def parseEventType (symbol : String) : Option String :=
  contractEventTypeValues.find? (fun t => t = symbol)

/-- `parseEventData` (indexer.service.ts:415): placeholder decoder that
wraps the raw XDR payload and the event type; its body cannot raise, so
the catch branch returning only the raw payload is dead. -/
def parseEventData (valueXdr : String) (eventType : String) : EventData :=
  { rawXdr := some valueXdr, eventTypeField := some eventType }

/-- `parseEvent` (indexer.service.ts:364): requires a truthy first topic
symbol that matches the enum, then composes the `ParsedContractEvent`;
the surrounding try/catch maps any raise to null (no reachable raise
exists in the body). -/
def parseEvent (event : SorobanEvent) : Option ParsedContractEvent :=
  match event.topic.head? with
  | none => none
  | some eventTypeSymbol =>
      if eventTypeSymbol = "" then none
      else
        match parseEventType eventTypeSymbol with
        | none => none
        | some eventType =>
            some { eventId := event.id
                   ledgerSeq := event.ledger
                   ledgerClosedAt := event.ledgerClosedAt
                   contractId := event.contractId
                   eventType := eventType
                   transactionHash := event.txHash
                   data := parseEventData event.value eventType
                   inSuccessfulContractCall := event.inSuccessfulContractCall }

/-- JavaScript truthiness of a possibly-absent string field. -/
def truthyStr : Option String → Bool
  | none => false
  | some s => s ≠ ""

/-- JavaScript truthiness of a possibly-absent number field. -/
def truthyInt : Option Int → Bool
  | none => false
  | some n => n ≠ 0

/-- Decimal digit test on a character code. -/
def isDigitChar (c : Char) : Bool :=
  48 ≤ c.toNat && c.toNat ≤ 57

/-- Value of an all-digit character list, absent otherwise. -/
def parseNatDigits (cs : List Char) : Option Nat :=
  if cs.isEmpty then none
  else if cs.all isDigitChar then
    some (cs.foldl (fun acc c => acc * 10 + (c.toNat - 48)) 0)
  else none

/-- The integer denoted by a decimal string with an optional sign. -/
def jsStringToInt (s : String) : Option Int :=
  match s.data with
  | '-' :: rest => (parseNatDigits rest).map (fun n => -(n : Int))
  | '+' :: rest => (parseNatDigits rest).map (fun n => (n : Int))
  | cs => (parseNatDigits cs).map (fun n => (n : Int))

/-- JavaScript `BigInt(x)` on a possibly-absent string field: absent
raises a TypeError, a non-numeric string raises a SyntaxError, the empty
string converts to zero. -/
def jsBigInt : Option String → Except String Int
  | none => .error "TypeError: Cannot convert undefined to a BigInt"
  | some s =>
      if s = "" then .ok 0
      else
        match jsStringToInt s with
        | some n => .ok n
        | none => .error "SyntaxError: Cannot convert string to a BigInt"

/-- Prisma `user.findUnique` by the unique wallet address. -/
def findUserByWallet (db : Db) (wallet : String) : Option UserRow :=
  db.users.find? (fun u => u.walletAddress = wallet)

/-- Prisma `user.upsert` with an empty update clause, creating a zero
reputation user when absent (event-handler.service.ts lines 42 and 101). -/
def upsertUserEmptyUpdate (db : Db) (wallet : String) : Db :=
  match findUserByWallet db wallet with
  | some _ => db
  | none => { db with users := db.users ++ [⟨"user:" ++ wallet, wallet, 0⟩] }

/-- Id of the row returned by the user upsert: the existing row's id, or
the id of the freshly created row. -/
def upsertedUserId (db : Db) (wallet : String) : String :=
  match findUserByWallet db wallet with
  | some u => u.id
  | none => "user:" ++ wallet

/-- Prisma `project.findUnique` by the unique on-chain contract id. -/
def findProjectByContractId (db : Db) (contractId : String) : Option ProjectRow :=
  db.projects.find? (fun p => p.contractId = contractId)

/-- `ProjectCreatedHandler.validate` (event-handler.service.ts:23). -/
def projectCreatedValidate (ev : ParsedContractEvent) : Bool :=
  ev.data.projectId.isSome && truthyStr ev.data.creator && truthyStr ev.data.fundingGoal
    && truthyInt ev.data.deadline && truthyStr ev.data.token

/-- `ProjectCreatedHandler.handle` (event-handler.service.ts:34): upsert
the creator, then upsert the project keyed by the stringified on-chain
project id.  Returns the mutated store and the optional raised error. -/
def projectCreatedHandle (db : Db) (ev : ParsedContractEvent) : Db × Option String :=
  match ev.data.creator with
  | none => (db, some "PrismaClientValidationError: undefined where argument")
  | some creator =>
      let db1 := upsertUserEmptyUpdate db creator
      let userId := upsertedUserId db creator
      match ev.data.projectId with
      | none => (db1, some "TypeError: Cannot read properties of undefined")
      | some pid =>
          match jsBigInt ev.data.fundingGoal with
          | .error e => (db1, some e)
          | .ok goal =>
              match ev.data.deadline with
              | none => (db1, some "TypeError: undefined deadline")
              | some deadline =>
                  let cid := toString pid
                  let title := "Project " ++ cid
                  let db2 :=
                    match findProjectByContractId db1 cid with
                    | some _ =>
                        { db1 with projects := (db1.projects.map (fun q =>
                            if q.contractId = cid then
                              { q with title := title, goal := goal,
                                       deadline := deadline * 1000, status := "ACTIVE" }
                            else q)) }
                    | none =>
                        let p : ProjectRow :=
                          ⟨"project:" ++ cid, cid, userId, title, "uncategorized",
                           goal, deadline * 1000, "ACTIVE", 0⟩
                        { db1 with projects := db1.projects ++ [p] }
                  (db2, none)

/-- `ContributionMadeHandler.validate` (event-handler.service.ts:84):
checks `projectId`, `contributor` and `amount`, but not `totalRaised`. -/
def contributionMadeValidate (ev : ParsedContractEvent) : Bool :=
  ev.data.projectId.isSome && truthyStr ev.data.contributor && truthyStr ev.data.amount

/-- `ContributionMadeHandler.handle` (event-handler.service.ts:93):
upsert the contributing user; find the project (skip when absent);
upsert the contribution keyed by transaction hash; write the event's
running total into the project's `currentFunds`.  The `BigInt`
conversions raise on absent fields, after the earlier writes landed. -/
def contributionMadeHandle (db : Db) (ev : ParsedContractEvent) : Db × Option String :=
  match ev.data.contributor with
  | none => (db, some "PrismaClientValidationError: undefined where argument")
  | some contributor =>
      let db1 := upsertUserEmptyUpdate db contributor
      let userId := upsertedUserId db contributor
      match ev.data.projectId with
      | none => (db1, some "TypeError: Cannot read properties of undefined")
      | some pid =>
          match findProjectByContractId db1 (toString pid) with
          | none => (db1, none)
          | some project =>
              match jsBigInt ev.data.amount with
              | .error e => (db1, some e)
              | .ok amount =>
                  let db2 :=
                    if db1.contributions.any (fun c => c.transactionHash = ev.transactionHash) then
                      db1
                    else
                      { db1 with contributions := db1.contributions ++
                          [⟨ev.transactionHash, userId, project.id, amount, ev.ledgerClosedAt⟩] }
                  match jsBigInt ev.data.totalRaised with
                  | .error e => (db2, some e)
                  | .ok totalRaised =>
                      ({ db2 with projects := (db2.projects.map (fun q =>
                          if q.id = project.id then { q with currentFunds := totalRaised } else q)) },
                       none)

/-- `MilestoneApprovedHandler.validate` (event-handler.service.ts:154). -/
def milestoneApprovedValidate (ev : ParsedContractEvent) : Bool :=
  ev.data.projectId.isSome && ev.data.milestoneId.isSome

/-- `MilestoneApprovedHandler.handle` (event-handler.service.ts:159):
find the project (skip when absent), then `milestone.updateMany` with a
where clause holding only the project id, setting every milestone of the
project to APPROVED. -/
def milestoneApprovedHandle (db : Db) (ev : ParsedContractEvent) : Db × Option String :=
  match ev.data.projectId with
  | none => (db, some "TypeError: Cannot read properties of undefined")
  | some pid =>
      match findProjectByContractId db (toString pid) with
      | none => (db, none)
      | some project =>
          ({ db with milestones := (db.milestones.map (fun m =>
              if m.projectId = project.id then { m with status := "APPROVED" } else m)) },
           none)

/-- `FundsReleasedHandler.validate` (event-handler.service.ts:202). -/
def fundsReleasedValidate (ev : ParsedContractEvent) : Bool :=
  ev.data.projectId.isSome && truthyStr ev.data.amount

/-- `FundsReleasedHandler.handle` (event-handler.service.ts:207): find
the project (skip when absent), then `milestone.updateMany` filtered by
the project id alone, setting every milestone of the project to FUNDED
with the event's close time as completion date. -/
def fundsReleasedHandle (db : Db) (ev : ParsedContractEvent) : Db × Option String :=
  match ev.data.projectId with
  | none => (db, some "TypeError: Cannot read properties of undefined")
  | some pid =>
      match findProjectByContractId db (toString pid) with
      | none => (db, none)
      | some project =>
          ({ db with milestones := (db.milestones.map (fun m =>
              if m.projectId = project.id then
                { m with status := "FUNDED", completionDate := some ev.ledgerClosedAt }
              else m)) },
           none)

/-- `ProjectCompletedHandler.validate` (event-handler.service.ts:247). -/
def projectCompletedValidate (ev : ParsedContractEvent) : Bool :=
  ev.data.projectId.isSome

/-- `ProjectCompletedHandler.handle` (event-handler.service.ts:252):
`project.updateMany` by contract id, setting a COMPLETED status. -/
def projectCompletedHandle (db : Db) (ev : ParsedContractEvent) : Db × Option String :=
  match ev.data.projectId with
  | none => (db, some "TypeError: Cannot read properties of undefined")
  | some pid =>
      ({ db with projects := (db.projects.map (fun p =>
          if p.contractId = toString pid then { p with status := "COMPLETED" } else p)) },
       none)

/-- `ProjectFailedHandler.validate` (event-handler.service.ts:275). -/
def projectFailedValidate (ev : ParsedContractEvent) : Bool :=
  ev.data.projectId.isSome

/-- `ProjectFailedHandler.handle` (event-handler.service.ts:280):
`project.updateMany` by contract id, setting a CANCELLED status. -/
def projectFailedHandle (db : Db) (ev : ParsedContractEvent) : Db × Option String :=
  match ev.data.projectId with
  | none => (db, some "TypeError: Cannot read properties of undefined")
  | some pid =>
      ({ db with projects := (db.projects.map (fun p =>
          if p.contractId = toString pid then { p with status := "CANCELLED" } else p)) },
       none)

/-- Outcome of `EventHandlerService.processEvent`: the returned boolean,
or a propagated handler exception. -/
inductive EhResult
  | handled
  | notHandled
  | invalid
  | threw (msg : String)
  deriving Repr, DecidableEq

/-- The handler registry populated by `registerHandlers`
(event-handler.service.ts:309), keyed by the handler's event type tag. -/
def getHandlerFns (eventType : String) :
    Option ((ParsedContractEvent → Bool) × (Db → ParsedContractEvent → Db × Option String)) :=
  if eventType = "proj_new" then some (projectCreatedValidate, projectCreatedHandle)
  else if eventType = "contrib" then some (contributionMadeValidate, contributionMadeHandle)
  else if eventType = "m_apprv" then some (milestoneApprovedValidate, milestoneApprovedHandle)
  else if eventType = "release" then some (fundsReleasedValidate, fundsReleasedHandle)
  else if eventType = "proj_done" then some (projectCompletedValidate, projectCompletedHandle)
  else if eventType = "proj_fail" then some (projectFailedValidate, projectFailedHandle)
  else none

/-- `EventHandlerService.processEvent` (event-handler.service.ts:346):
no registered handler is a no-op returning false; a failing `validate`
skips and returns false; a passing `validate` runs `handle`, whose raise
is logged and rethrown. -/
def ehProcessEvent (db : Db) (ev : ParsedContractEvent) : Db × EhResult :=
  match getHandlerFns ev.eventType with
  | none => (db, .notHandled)
  | some (validateFn, handleFn) =>
      if validateFn ev then
        ((handleFn db ev).1,
         match (handleFn db ev).2 with
         | none => .handled
         | some msg => .threw msg)
      else (db, .invalid)

/-- Outcome of the orchestrator's per-event `processEvent`: the returned
boolean or a propagated exception. -/
inductive ProcessOutcome
  | returned (success : Bool)
  | threw (msg : String)
  deriving Repr, DecidableEq

/-- `IndexerService.processEvent` (indexer.service.ts:329): the dedup
check gates decoding and dispatch; a handled event is marked processed. -/
def orchProcessEvent (network : String) (db : Db) (event : SorobanEvent) :
    Db × ProcessOutcome :=
  if isEventProcessed network db event.id then
    (db, .returned false)
  else
    match parseEvent event with
    | none => (db, .returned false)
    | some parsed =>
        match (ehProcessEvent db parsed).2 with
        | .handled =>
            (markEventProcessed network (ehProcessEvent db parsed).1 event.id event.ledger
               event.contractId parsed.eventType event.txHash,
             .returned true)
        | .threw msg => ((ehProcessEvent db parsed).1, .threw msg)
        | _ => ((ehProcessEvent db parsed).1, .returned false)

/-- The per-event loop of `pollEvents` (indexer.service.ts:186): each
event is processed under a try/catch, so a per-event raise increments
the error count and the loop continues with the next event.  Returns the
final store with the processed and error counters. -/
def loopEvents (network : String) : Db → List SorobanEvent → Nat → Nat → Db × Nat × Nat
  | db, [], processedCount, errorCount => (db, processedCount, errorCount)
  | db, event :: rest, processedCount, errorCount =>
      match (orchProcessEvent network db event).2 with
      | .returned true =>
          loopEvents network (orchProcessEvent network db event).1 rest
            (processedCount + 1) errorCount
      | .returned false =>
          loopEvents network (orchProcessEvent network db event).1 rest
            processedCount errorCount
      | .threw _ =>
          loopEvents network (orchProcessEvent network db event).1 rest
            processedCount (errorCount + 1)

/-- Terminal outcome of `fetchEventsWithRetry` as observed by one poll
cycle: the fetched batch, or the wrapped terminal error. -/
inductive FetchOutcome
  | ok (events : List SorobanEvent)
  | err (msg : String)
  deriving Repr, DecidableEq

/-- The body of one poll cycle, `pollEvents` (indexer.service.ts:146),
after the single-flight guard: resolve the range from the cursor; no-op
when the range is empty; on a terminal fetch failure the outer catch
logs and leaves the store as it was (no cursor advance); on a successful
fetch, process the batch (empty or not) and advance the cursor to the
range end `latestLedger`. -/
def pollEvents (network : String) (db : Db) (latestLedger : Int)
    (fetch : FetchOutcome) : Db :=
  let startLedger := match getLastCursor db with
    | some c => c.lastLedgerSeq + 1
    | none => 1
  if startLedger > latestLedger then db
  else
    match fetch with
    | .err _ => db
    | .ok events =>
        if events.isEmpty then updateCursor db latestLedger none
        else updateCursor (loopEvents network db events 0 0).1 latestLedger none

/-- Observable trace of `fetchEventsWithRetry`: its result, how many
times `fetchEvents` ran, and the sleeps between failed attempts in
chronological order. -/
structure RetryTrace where
  result : Except String (List SorobanEvent)
  calls : Nat
  delays : List Int
  deriving Repr

/-- The retry loop of `fetchEventsWithRetry` (indexer.service.ts:230)
from a given attempt number, with `fetch` the outcome oracle of each
`fetchEvents` call and `remaining` the attempts left in the bounded for
loop (`remaining = retryAttempts + 1 - attempt` at every call): a
success returns immediately; a failure sleeps
`retryDelayMs * 2 ^ (attempt - 1)` when further attempts remain;
exhaustion raises an error wrapping the attempt budget and the last
message. -/
def retryGo (retryAttempts : Nat) (retryDelayMs : Int)
    (fetch : Nat → Except String (List SorobanEvent)) :
    Nat → Nat → Option String → RetryTrace
  | _, 0, lastError =>
      ⟨.error ("Failed to fetch events after " ++ toString retryAttempts ++ " attempts: "
          ++ (match lastError with | some m => m | none => "undefined")), 0, []⟩
  | attempt, remaining + 1, _ =>
      match fetch attempt with
      | .ok events => ⟨.ok events, 1, []⟩
      | .error msg =>
          let tail := retryGo retryAttempts retryDelayMs fetch (attempt + 1) remaining (some msg)
          ⟨tail.result, tail.calls + 1,
           if attempt < retryAttempts then
             (retryDelayMs * 2 ^ (attempt - 1)) :: tail.delays
           else tail.delays⟩

/-- `fetchEventsWithRetry` (indexer.service.ts:224): the retry loop
started at attempt 1 with the full attempt budget and no last error. -/
def fetchEventsWithRetry (retryAttempts : Nat) (retryDelayMs : Int)
    (fetch : Nat → Except String (List SorobanEvent)) : RetryTrace :=
  retryGo retryAttempts retryDelayMs fetch 1 retryAttempts none

/-- Fixture for the reorg classification claims: a cursor at ledger 100
with hash H1. -/
def c1Db : Db := ⟨[], [], [], [], [], some ⟨"testnet", 100, some "H1"⟩⟩

/-- Fixture for the rollback claim: two dedup rows at ledgers 97 and 90
and a cursor at 100. -/
def c2Db : Db :=
  ⟨[], [], [], [],
   [⟨"e97", "testnet", 97, "C", "contrib", "t97"⟩,
    ⟨"e90", "testnet", 90, "C", "contrib", "t90"⟩],
   some ⟨"testnet", 100, some "H1"⟩⟩

/-- Fixture for the poll cycle claim: a cursor at ledger 49, so the next
range is 50 up to the remote tip. -/
def c3Db : Db := ⟨[], [], [], [], [], some ⟨"testnet", 49, none⟩⟩

/-- A raw contribution event inside the polled range. -/
def c3Event : SorobanEvent :=
  ⟨"contract", 60, "t", "C", "id3", "pt", ["contrib"], "VAL", true, "tx3"⟩

/-- Fixture for the start ledger claim: an uninitialized store. -/
def c4EmptyDb : Db := ⟨[], [], [], [], [], none⟩

/-- Fixture for the start ledger claim: a cursor already at 100. -/
def c4CursorDb : Db := ⟨[], [], [], [], [], some ⟨"testnet", 100, none⟩⟩

/-- Fixture for the idempotent mark claim: an empty dedup ledger. -/
def c5Db : Db := ⟨[], [], [], [], [], none⟩

/-- Fixture for the dedup skip claim: one dedup row for event id6. -/
def c6Db : Db := ⟨[], [], [], [], [⟨"id6", "testnet", 50, "C", "contrib", "tx6"⟩], none⟩

/-- A redelivery of the already processed event id6. -/
def c6Event : SorobanEvent :=
  ⟨"contract", 50, "t", "C", "id6", "pt", ["contrib"], "VAL", true, "tx6"⟩

/-- Fetch oracle whose every attempt fails with a numbered message. -/
def c7Fetch : Nat → Except String (List SorobanEvent) :=
  fun i => .error ("e" ++ toString i)

/-- Fixture project for the milestone claims, with on-chain id 1. -/
def c8Proj : ProjectRow :=
  ⟨"p1", "1", "u0", "Project 1", "uncategorized", 1000, 0, "ACTIVE", 0⟩

/-- Fixture for the milestone claims: project 1 owns two PENDING
milestones, and a foreign milestone belongs to another project. -/
def c8Db : Db :=
  ⟨[], [c8Proj], [],
   [⟨"m1", "p1", "PENDING", none⟩, ⟨"m2", "p1", "PENDING", none⟩,
    ⟨"m9", "pOther", "PENDING", none⟩],
   [], none⟩

/-- A MilestoneApproved event naming project 1 and milestone 2. -/
def c8Ev : ParsedContractEvent :=
  { eventId := "ev8", ledgerSeq := 5, ledgerClosedAt := "t8", contractId := "C",
    eventType := "m_apprv", transactionHash := "tx8",
    data := { projectId := some 1, milestoneId := some 2 },
    inSuccessfulContractCall := true }

/-- A FundsReleased event naming project 1 and milestone 2. -/
def c8EvRelease : ParsedContractEvent :=
  { eventId := "ev8b", ledgerSeq := 6, ledgerClosedAt := "t8b", contractId := "C",
    eventType := "release", transactionHash := "tx8b",
    data := { projectId := some 1, milestoneId := some 2, amount := some "10" },
    inSuccessfulContractCall := true }

/-- Fixture project for the contribution validation claim, with on-chain
id 42. -/
def c9Proj : ProjectRow :=
  ⟨"p42", "42", "u0", "Project 42", "uncategorized", 1000, 0, "ACTIVE", 0⟩

/-- Fixture store holding project 42 and nothing else. -/
def c9Db : Db := ⟨[], [c9Proj], [], [], [], none⟩

/-- A ContributionMade event with projectId, contributor and amount
present but the running total `totalRaised` absent. -/
def c9Ev : ParsedContractEvent :=
  { eventId := "ev9", ledgerSeq := 5, ledgerClosedAt := "t9", contractId := "C",
    eventType := "contrib", transactionHash := "tx9",
    data := { projectId := some 42, contributor := some "GCONTRIB", amount := some "5" },
    inSuccessfulContractCall := true }

/-- A raw event with a known event type tag in its first topic. -/
def c10Event : SorobanEvent :=
  ⟨"contract", 5, "t10", "C", "id10", "pt", ["contrib", "x"], "VAL", true, "tx10"⟩

/-- The parsed form of `c10Event`. -/
def c10Parsed : ParsedContractEvent :=
  ⟨"id10", 5, "t10", "C", "contrib", "tx10",
   ⟨some "VAL", some "contrib", none, none, none, none, none, none, none, none, none,
    none, none⟩,
   true⟩

theorem upsertUserEmptyUpdate_cursor (db : Db) (w : String) :
    (upsertUserEmptyUpdate db w).cursor = db.cursor := by
  unfold upsertUserEmptyUpdate
  split
  · rfl
  · rfl

theorem markEventProcessed_cursor (network : String) (db : Db) (eventId : String)
    (ledgerSeq : Int) (contractId : String) (eventType : String) (transactionHash : String) :
    (markEventProcessed network db eventId ledgerSeq contractId eventType transactionHash).cursor
      = db.cursor := by
  unfold markEventProcessed
  split <;> rfl

theorem projectCreatedHandle_cursor (db : Db) (ev : ParsedContractEvent) :
    (projectCreatedHandle db ev).1.cursor = db.cursor := by
  unfold projectCreatedHandle
  repeat' split
  all_goals (try simp [upsertUserEmptyUpdate_cursor])
  all_goals (repeat' split)
  all_goals simp [upsertUserEmptyUpdate_cursor]

theorem contributionMadeHandle_cursor (db : Db) (ev : ParsedContractEvent) :
    (contributionMadeHandle db ev).1.cursor = db.cursor := by
  unfold contributionMadeHandle
  repeat' split
  all_goals (try simp [upsertUserEmptyUpdate_cursor])
  all_goals (repeat' split)
  all_goals simp [upsertUserEmptyUpdate_cursor]

theorem milestoneApprovedHandle_cursor (db : Db) (ev : ParsedContractEvent) :
    (milestoneApprovedHandle db ev).1.cursor = db.cursor := by
  unfold milestoneApprovedHandle
  repeat' split
  all_goals rfl

theorem fundsReleasedHandle_cursor (db : Db) (ev : ParsedContractEvent) :
    (fundsReleasedHandle db ev).1.cursor = db.cursor := by
  unfold fundsReleasedHandle
  repeat' split
  all_goals rfl

theorem projectCompletedHandle_cursor (db : Db) (ev : ParsedContractEvent) :
    (projectCompletedHandle db ev).1.cursor = db.cursor := by
  unfold projectCompletedHandle
  repeat' split
  all_goals rfl

theorem projectFailedHandle_cursor (db : Db) (ev : ParsedContractEvent) :
    (projectFailedHandle db ev).1.cursor = db.cursor := by
  unfold projectFailedHandle
  repeat' split
  all_goals rfl

theorem getHandlerFns_handle_cursor (t : String) (v : ParsedContractEvent → Bool)
    (h : Db → ParsedContractEvent → Db × Option String)
    (hg : getHandlerFns t = some (v, h)) :
    ∀ (db : Db) (ev : ParsedContractEvent), (h db ev).1.cursor = db.cursor := by
  unfold getHandlerFns at hg
  repeat' split at hg
  all_goals (first
    | (cases hg; exact projectCreatedHandle_cursor)
    | (cases hg; exact contributionMadeHandle_cursor)
    | (cases hg; exact milestoneApprovedHandle_cursor)
    | (cases hg; exact fundsReleasedHandle_cursor)
    | (cases hg; exact projectCompletedHandle_cursor)
    | (cases hg; exact projectFailedHandle_cursor)
    | exact Option.noConfusion hg)

theorem ehProcessEvent_cursor (db : Db) (ev : ParsedContractEvent) :
    (ehProcessEvent db ev).1.cursor = db.cursor := by
  unfold ehProcessEvent
  split
  · rfl
  · rename_i v h heq
    split
    · have hh := getHandlerFns_handle_cursor ev.eventType v h heq db ev
      split
      · exact hh
      · exact hh
    · rfl

theorem orchProcessEvent_cursor (network : String) (db : Db) (e : SorobanEvent) :
    (orchProcessEvent network db e).1.cursor = db.cursor := by
  unfold orchProcessEvent
  split
  · rfl
  · split
    · rfl
    · rename_i parsed heq
      split
      · exact (markEventProcessed_cursor network (ehProcessEvent db parsed).1 e.id e.ledger
          e.contractId parsed.eventType e.txHash).trans (ehProcessEvent_cursor db parsed)
      · exact ehProcessEvent_cursor db parsed
      · exact ehProcessEvent_cursor db parsed

theorem loopEvents_cursor (network : String) (events : List SorobanEvent) :
    ∀ (db : Db) (p er : Nat), (loopEvents network db events p er).1.cursor = db.cursor := by
  induction events with
  | nil => intro db p er; rfl
  | cons e rest ih =>
      intro db p er
      unfold loopEvents
      split
      all_goals exact (ih _ _ _).trans (orchProcessEvent_cursor network db e)

/-- C1: for every remote ledger report and stored cursor state,
`detectReorg` classifies exactly as specified: (a) no cursor or no cursor
hash reports no reorg with `lastValidLedger = remote.sequence - 1`; (b)
equal sequence with differing hash reports a reorg of depth 1 with
`lastValidLedger = remote.sequence - 1`; (c) remote strictly ahead is no
reorg; (d) remote strictly behind is a reorg of depth
`cursorSeq - remoteSeq`. -/
theorem detectReorg_classifies (db : Db) (cur : LedgerInfo) :
    ((getLastCursor db = none ∨ ∃ c, getLastCursor db = some c ∧ c.lastLedgerHash = none) →
      detectReorg db cur = ⟨false, 0, cur.sequence - 1, cur.sequence⟩)
  ∧ (∀ c h, getLastCursor db = some c → c.lastLedgerHash = some h →
      cur.sequence = c.lastLedgerSeq → cur.hash ≠ h →
      detectReorg db cur = ⟨true, 1, cur.sequence - 1, cur.sequence⟩)
  ∧ (∀ c h, getLastCursor db = some c → c.lastLedgerHash = some h →
      c.lastLedgerSeq < cur.sequence → (detectReorg db cur).hasReorg = false)
  ∧ (∀ c h, getLastCursor db = some c → c.lastLedgerHash = some h →
      cur.sequence < c.lastLedgerSeq →
      (detectReorg db cur).hasReorg = true ∧
        (detectReorg db cur).reorgDepth = c.lastLedgerSeq - cur.sequence) := by
  refine ⟨?_, ?_, ?_, ?_⟩
  · rintro (hnone | ⟨c, hc, hh⟩)
    · simp [detectReorg, hnone]
    · simp [detectReorg, hc, hh]
  · intro c h hc hh hseq hneq
    simp [detectReorg, hc, hh, hseq, hneq]
  · intro c h hc hh hlt
    have hne : ¬ cur.sequence = c.lastLedgerSeq := by omega
    simp only [detectReorg, hc, hh]
    rw [if_neg hne, if_pos (by omega : cur.sequence > c.lastLedgerSeq)]
  · intro c h hc hh hlt
    have hne : ¬ cur.sequence = c.lastLedgerSeq := by omega
    simp only [detectReorg, hc, hh]
    rw [if_neg hne, if_neg (by omega : ¬ cur.sequence > c.lastLedgerSeq)]
    exact ⟨rfl, rfl⟩

/-- Witness for C1 at the spec's own example: cursor at sequence 100
with hash H1, remote reports sequence 100 with hash H2. -/
theorem detectReorg_classifies_witness :
    detectReorg c1Db ⟨100, "H2"⟩ = ⟨true, 1, 99, 100⟩ := by
  have h := (detectReorg_classifies c1Db ⟨100, "H2"⟩).2.1 ⟨"testnet", 100, some "H1"⟩ "H1"
    (by decide) (by decide) (by decide) (by decide)
  exact h.trans (by decide)

/-- C2: `handleReorg` is a no-op on a negative detection result;
otherwise it returns `safeLedger = max 0 (lastValidLedger - min
(reorgDepth + 2) threshold)`, deletes exactly the network's
`ProcessedEvent` rows with `ledgerSeq > safeLedger`, and resets the
cursor to `safeLedger`. -/
theorem handleReorg_rollback (network : String) (threshold : Int) (db : Db)
    (r : ReorgDetectionResult) :
    (r.hasReorg = false → handleReorg network threshold db r = (db, r.newLatestLedger))
  ∧ (r.hasReorg = true →
      (handleReorg network threshold db r).2 =
        max 0 (r.lastValidLedger - min (r.reorgDepth + 2) threshold)
      ∧ (∀ e : ProcessedEventRow,
          e ∈ (handleReorg network threshold db r).1.processedEvents ↔
            (e ∈ db.processedEvents ∧ ¬(e.network = network ∧
              e.ledgerSeq > max 0 (r.lastValidLedger - min (r.reorgDepth + 2) threshold))))
      ∧ (∀ c, db.cursor = some c →
          (handleReorg network threshold db r).1.cursor =
            some { c with
              lastLedgerSeq := max 0 (r.lastValidLedger - min (r.reorgDepth + 2) threshold),
              lastLedgerHash := none })) := by
  constructor
  · intro hf
    simp [handleReorg, hf]
  · intro ht
    have hred : handleReorg network threshold db r =
        (updateCursor { db with processedEvents := (db.processedEvents.filter
            (fun e => !(e.network = network ∧ e.ledgerSeq >
              max 0 (r.lastValidLedger - min (r.reorgDepth + 2) threshold) : Bool))) }
          (max 0 (r.lastValidLedger - min (r.reorgDepth + 2) threshold)) none,
         max 0 (r.lastValidLedger - min (r.reorgDepth + 2) threshold)) := by
      unfold handleReorg
      rw [ht]
      rfl
    refine ⟨?_, ?_, ?_⟩
    · rw [hred]
    · intro e
      rw [hred]
      simp only [updateCursor]
      generalize (max 0 (r.lastValidLedger - min (r.reorgDepth + 2) threshold)) = L
      simp [List.mem_filter]
      tauto
    · intro c hc
      rw [hred]
      simp [updateCursor, hc, normHash]

/-- Witness for C2 at the spec's example: depth 1, last valid ledger 99,
threshold 5 gives safe ledger 96; the row at ledger 97 is purged, the
row at ledger 90 survives, and the cursor is reset to 96. -/
theorem handleReorg_rollback_witness :
    (handleReorg "testnet" 5 c2Db ⟨true, 1, 99, 100⟩).2 = 96
  ∧ (handleReorg "testnet" 5 c2Db ⟨true, 1, 99, 100⟩).1.cursor = some ⟨"testnet", 96, none⟩
  ∧ ¬ ((⟨"e97", "testnet", 97, "C", "contrib", "t97"⟩ : ProcessedEventRow) ∈
        (handleReorg "testnet" 5 c2Db ⟨true, 1, 99, 100⟩).1.processedEvents)
  ∧ ((⟨"e90", "testnet", 90, "C", "contrib", "t90"⟩ : ProcessedEventRow) ∈
        (handleReorg "testnet" 5 c2Db ⟨true, 1, 99, 100⟩).1.processedEvents) := by
  have h := (handleReorg_rollback "testnet" 5 c2Db ⟨true, 1, 99, 100⟩).2 rfl
  refine ⟨h.1.trans (by decide), (h.2.2 ⟨"testnet", 100, some "H1"⟩ rfl).trans (by decide), ?_, ?_⟩
  · intro hmem
    have h2 := (h.2.1 ⟨"e97", "testnet", 97, "C", "contrib", "t97"⟩).mp hmem
    exact h2.2 (by decide)
  · exact (h.2.1 ⟨"e90", "testnet", 90, "C", "contrib", "t90"⟩).mpr ⟨by decide, by decide⟩

/-- C4 counterexample: with no cursor and a configured start ledger of
0, `getStartLedger` does not return the configured value: the zero is
falsy and the code falls through to the remote tip (here 10). -/
theorem getStartLedger_zero_configured_cex :
    (getStartLedger "testnet" (some 0) c4EmptyDb 10).2 = 10
  ∧ (getStartLedger "testnet" (some 0) c4EmptyDb 10).2 ≠ 0
  ∧ (getStartLedger "testnet" (some 0) c4EmptyDb 10).1.cursor = some ⟨"testnet", 9, none⟩ := by
  refine ⟨by decide, by decide, by decide⟩

/-- C4 amended: a cursor always wins and yields `lastLedgerSeq + 1`;
with no cursor, a configured nonzero start ledger initializes the
cursor at `configuredStart - 1` and returns `configuredStart`; with no
cursor and the start ledger unset or set to 0 (falsy in JavaScript),
the cursor is initialized at `remoteLatest - 1` and `remoteLatest` is
returned. -/
theorem getStartLedger_resume (network : String) (configuredStart : Option Int) (db : Db)
    (latest : Int) :
    (∀ c, getLastCursor db = some c →
        getStartLedger network configuredStart db latest = (db, c.lastLedgerSeq + 1))
  ∧ (getLastCursor db = none → ∀ s, configuredStart = some s → s ≠ 0 →
        getStartLedger network configuredStart db latest = (initializeCursor network db (s - 1), s))
  ∧ (getLastCursor db = none → (configuredStart = none ∨ configuredStart = some 0) →
        getStartLedger network configuredStart db latest =
          (initializeCursor network db (latest - 1), latest)) := by
  refine ⟨?_, ?_, ?_⟩
  · intro c hc
    simp [getStartLedger, hc]
  · intro hn s hs hnz
    simp [getStartLedger, hn, hs, hnz]
  · rintro hn (hcs | hcs) <;> simp [getStartLedger, hn, hcs]

/-- Witness for C4 amended: a cursor at 100 resumes at 101 even with a
configured start ledger of 7; without a cursor, the configured 7
initializes the cursor at 6 and is returned. -/
theorem getStartLedger_resume_witness :
    getStartLedger "testnet" (some 7) c4CursorDb 10 = (c4CursorDb, 101)
  ∧ getStartLedger "testnet" (some 7) c4EmptyDb 10 =
      (initializeCursor "testnet" c4EmptyDb 6, 7) := by
  have h1 := (getStartLedger_resume "testnet" (some 7) c4CursorDb 10).1
    ⟨"testnet", 100, none⟩ (by decide)
  have h2 := (getStartLedger_resume "testnet" (some 7) c4EmptyDb 10).2.1 rfl 7 rfl (by decide)
  exact ⟨h1.trans (by decide), h2.trans (by decide)⟩

/-- C6: an event whose id already has a dedup row is skipped by the
orchestrator's per-event processing without decoding or dispatch, so
the users, projects, contributions and milestones tables are exactly
unchanged. -/
theorem orchProcessEvent_skips_processed (network : String) (db : Db) (event : SorobanEvent)
    (h : isEventProcessed network db event.id = true) :
    orchProcessEvent network db event = (db, .returned false)
  ∧ (orchProcessEvent network db event).1.users = db.users
  ∧ (orchProcessEvent network db event).1.projects = db.projects
  ∧ (orchProcessEvent network db event).1.contributions = db.contributions
  ∧ (orchProcessEvent network db event).1.milestones = db.milestones := by
  have h0 : orchProcessEvent network db event = (db, .returned false) := by
    unfold orchProcessEvent
    simp [h]
  exact ⟨h0, by rw [h0], by rw [h0], by rw [h0], by rw [h0]⟩

/-- Witness for C6: redelivering event id6, which already has a dedup
row, leaves the store untouched and reports not handled. -/
theorem orchProcessEvent_skips_processed_witness :
    orchProcessEvent "testnet" c6Db c6Event = (c6Db, .returned false) :=
  (orchProcessEvent_skips_processed "testnet" c6Db c6Event (by decide)).1

/-- C3: in one poll cycle over a non-empty range, a terminal fetch
failure leaves the whole store (in particular the cursor) unchanged,
while a successful fetch runs the per-event loop over the entire batch
(whatever each event's outcome) and then advances the cursor to the
range end, including for an empty batch. -/
theorem pollEvents_cursor_advance (network : String) (db : Db) (latest : Int) (c : CursorRow)
    (hc : db.cursor = some c) (hrange : c.lastLedgerSeq + 1 ≤ latest) :
    (∀ msg, pollEvents network db latest (.err msg) = db)
  ∧ (∀ events, pollEvents network db latest (.ok events) =
      updateCursor (loopEvents network db events 0 0).1 latest none)
  ∧ (∀ events, (pollEvents network db latest (.ok events)).cursor =
      some { c with lastLedgerSeq := latest, lastLedgerHash := none }) := by
  have hcur : getLastCursor db = some { c with lastLedgerHash := normHash c.lastLedgerHash } := by
    simp [getLastCursor, hc]
  have hno : ¬ (c.lastLedgerSeq + 1 > latest) := by omega
  have h2 : ∀ events, pollEvents network db latest (.ok events) =
      updateCursor (loopEvents network db events 0 0).1 latest none := by
    intro events
    cases events with
    | nil => simp [pollEvents, hcur, hno, loopEvents]
    | cons e rest => simp [pollEvents, hcur, hno]
  refine ⟨?_, h2, ?_⟩
  · intro msg
    simp [pollEvents, hcur, hno]
  · intro events
    rw [h2 events]
    have h3 : (loopEvents network db events 0 0).1.cursor = db.cursor :=
      loopEvents_cursor network events db 0 0
    simp [updateCursor, h3, hc, normHash]

/-- Witness for C3: cursor at 49 and remote tip 80; a failed fetch
leaves the store unchanged, an empty batch advances the cursor to 80,
and a one-event batch also advances the cursor to 80. -/
theorem pollEvents_cursor_advance_witness :
    pollEvents "testnet" c3Db 80 (.err "boom") = c3Db
  ∧ (pollEvents "testnet" c3Db 80 (.ok [])).cursor = some ⟨"testnet", 80, none⟩
  ∧ (pollEvents "testnet" c3Db 80 (.ok [c3Event])).cursor = some ⟨"testnet", 80, none⟩ := by
  have h := pollEvents_cursor_advance "testnet" c3Db 80 ⟨"testnet", 49, none⟩ rfl (by decide)
  exact ⟨h.1 "boom", (h.2.2 []).trans (by decide), (h.2.2 [c3Event]).trans (by decide)⟩

/-- C5: `markEventProcessed` is idempotent on the event id: marking the
same id twice equals marking it once (whatever the other arguments of
the second call), and — on a store whose dedup ledger holds at most one
row for the id — a mark leaves exactly one row for the id. -/
theorem markEventProcessed_idempotent (network : String) (db : Db) (eventId : String)
    (l1 l2 : Int) (cid1 cid2 et1 et2 tx1 tx2 : String)
    (hdup : db.processedEvents.countP (fun e => e.eventId = eventId) ≤ 1) :
    markEventProcessed network (markEventProcessed network db eventId l1 cid1 et1 tx1)
        eventId l2 cid2 et2 tx2 = markEventProcessed network db eventId l1 cid1 et1 tx1
  ∧ (markEventProcessed network db eventId l1 cid1 et1 tx1).processedEvents.countP
      (fun e => e.eventId = eventId) = 1
  ∧ (markEventProcessed network (markEventProcessed network db eventId l1 cid1 et1 tx1)
        eventId l2 cid2 et2 tx2).processedEvents.countP
      (fun e => e.eventId = eventId) = 1 := by
  by_cases hany : db.processedEvents.any (fun e => e.eventId = eventId)
  · have heq : markEventProcessed network db eventId l1 cid1 et1 tx1 = db := by
      simp [markEventProcessed, hany]
    have heqb : markEventProcessed network db eventId l2 cid2 et2 tx2 = db := by
      simp [markEventProcessed, hany]
    have hpos : 0 < db.processedEvents.countP (fun e => e.eventId = eventId) := by
      rcases List.any_eq_true.mp hany with ⟨a, ha, hpa⟩
      exact List.countP_pos_iff.mpr ⟨a, ha, hpa⟩
    refine ⟨by rw [heq, heqb], by rw [heq]; omega, by rw [heq, heqb]; omega⟩
  · have hzero : db.processedEvents.countP (fun e => e.eventId = eventId) = 0 := by
      rw [List.countP_eq_zero]
      intro a ha
      exact fun hpa => hany (List.any_eq_true.mpr ⟨a, ha, hpa⟩)
    have heq1 : markEventProcessed network db eventId l1 cid1 et1 tx1 =
        { db with processedEvents := db.processedEvents ++
            [⟨eventId, network, l1, cid1, et1, tx1⟩] } := by
      simp [markEventProcessed, hany]
    have hcount : ({ db with processedEvents := db.processedEvents ++
        [⟨eventId, network, l1, cid1, et1, tx1⟩] } : Db).processedEvents.countP
          (fun e => e.eventId = eventId) = 1 := by
      simp [List.countP_append, hzero]
    have hany2 : ((({ db with processedEvents := db.processedEvents ++
        [⟨eventId, network, l1, cid1, et1, tx1⟩] } : Db)).processedEvents.any
          (fun e => e.eventId = eventId)) = true := by
      simp [List.any_append]
    have heq2 : markEventProcessed network (markEventProcessed network db eventId l1 cid1 et1 tx1)
        eventId l2 cid2 et2 tx2 = markEventProcessed network db eventId l1 cid1 et1 tx1 := by
      rw [heq1]
      simp [markEventProcessed, hany2]
    refine ⟨heq2, by rw [heq1]; exact hcount, by rw [heq2, heq1]; exact hcount⟩

/-- Witness for C5: marking event ev5 twice on an empty store equals a
single mark and leaves exactly one dedup row for ev5. -/
theorem markEventProcessed_idempotent_witness :
    markEventProcessed "testnet" (markEventProcessed "testnet" c5Db "ev5" 10 "C" "contrib" "tx5")
        "ev5" 11 "C" "contrib" "tx5b"
      = markEventProcessed "testnet" c5Db "ev5" 10 "C" "contrib" "tx5"
  ∧ (markEventProcessed "testnet" c5Db "ev5" 10 "C" "contrib" "tx5").processedEvents.countP
      (fun e => e.eventId = "ev5") = 1 := by
  have h := markEventProcessed_idempotent "testnet" c5Db "ev5" 10 11 "C" "C" "contrib" "contrib"
    "tx5" "tx5b" (by decide)
  exact ⟨h.1, h.2.1⟩

theorem retryGo_calls_le (ra : Nat) (rd : Int)
    (fetch : Nat → Except String (List SorobanEvent)) :
    ∀ (remaining attempt : Nat) (lastError : Option String),
      (retryGo ra rd fetch attempt remaining lastError).calls ≤ remaining := by
  intro remaining
  induction remaining with
  | zero => intro attempt lastError; simp [retryGo]
  | succ r ih =>
      intro attempt lastError
      cases hf : fetch attempt with
      | ok events => simp [retryGo, hf]
      | error msg =>
          have h2 := ih (attempt + 1) (some msg)
          simp [retryGo, hf]
          omega

theorem retryGo_allfail (ra : Nat) (rd : Int)
    (fetch : Nat → Except String (List SorobanEvent)) (errs : Nat → String) :
    ∀ (remaining attempt : Nat) (lastError : Option String),
      attempt + remaining = ra + 1 → 1 ≤ attempt → attempt ≤ ra →
      (∀ i, attempt ≤ i → i ≤ ra → fetch i = .error (errs i)) →
      retryGo ra rd fetch attempt remaining lastError =
        ⟨.error ("Failed to fetch events after " ++ toString ra ++ " attempts: " ++ errs ra),
         remaining,
         (List.range' attempt (remaining - 1)).map (fun a => rd * 2 ^ (a - 1))⟩ := by
  intro remaining
  induction remaining with
  | zero =>
      intro attempt lastError hsum h1 hle hfail
      omega
  | succ r ih =>
      intro attempt lastError hsum h1 hle hfail
      have hf := hfail attempt le_rfl hle
      cases r with
      | zero =>
          have hra : attempt = ra := by omega
          subst hra
          simp [retryGo, hf, List.range']
      | succ r2 =>
          have hlt : attempt < ra := by omega
          have ih2 := ih (attempt + 1) (some (errs attempt)) (by omega) (by omega) (by omega)
            (fun i hi1 hi2 => hfail i (by omega) hi2)
          show (match fetch attempt with
            | .ok events => (⟨.ok events, 1, []⟩ : RetryTrace)
            | .error msg =>
                let tail := retryGo ra rd fetch (attempt + 1) (r2 + 1) (some msg)
                ⟨tail.result, tail.calls + 1,
                 if attempt < ra then (rd * 2 ^ (attempt - 1)) :: tail.delays
                 else tail.delays⟩) = _
          rw [hf]
          simp only [ih2, if_pos hlt]
          refine congrArg (RetryTrace.mk _ _) ?_
          have hr : List.range' attempt (r2 + 1 + 1 - 1) =
              attempt :: List.range' (attempt + 1) (r2 + 1 - 1) := by
            simp [List.range'_succ]
          rw [hr]
          simp

/-- C7: `fetchEventsWithRetry` calls `fetchEvents` at most
`retryAttempts` times; when every attempt fails it performs exactly
`retryAttempts` calls, sleeps `retryDelayMs * 2 ^ (attempt - 1)` after
each failed non-final attempt (attempts 1 through retryAttempts - 1,
in order), and ends with an error wrapping the attempt budget and the
last observed message. -/
theorem fetchEventsWithRetry_backoff (ra : Nat) (rd : Int)
    (fetch : Nat → Except String (List SorobanEvent)) (errs : Nat → String) (hra : 1 ≤ ra)
    (hfail : ∀ i, 1 ≤ i → i ≤ ra → fetch i = .error (errs i)) :
    (∀ g : Nat → Except String (List SorobanEvent),
        (fetchEventsWithRetry ra rd g).calls ≤ ra)
  ∧ (fetchEventsWithRetry ra rd fetch).calls = ra
  ∧ (fetchEventsWithRetry ra rd fetch).delays =
      (List.range' 1 (ra - 1)).map (fun a => rd * 2 ^ (a - 1))
  ∧ (fetchEventsWithRetry ra rd fetch).result =
      .error ("Failed to fetch events after " ++ toString ra ++ " attempts: " ++ errs ra) := by
  have hall := retryGo_allfail ra rd fetch errs ra 1 none (by omega) le_rfl hra hfail
  refine ⟨fun g => retryGo_calls_le ra rd g ra 1 none, ?_, ?_, ?_⟩
  · rw [fetchEventsWithRetry, hall]
  · rw [fetchEventsWithRetry, hall]
  · rw [fetchEventsWithRetry, hall]

/-- Witness for C7 at the spec's example: three failing attempts with a
base delay of 1000ms sleep 1000ms then 2000ms and end with a terminal
error naming 3 attempts and the last message. -/
theorem fetchEventsWithRetry_backoff_witness :
    (fetchEventsWithRetry 3 1000 c7Fetch).calls = 3
  ∧ (fetchEventsWithRetry 3 1000 c7Fetch).delays = [1000, 2000]
  ∧ (fetchEventsWithRetry 3 1000 c7Fetch).result =
      .error "Failed to fetch events after 3 attempts: e3" := by
  have h := fetchEventsWithRetry_backoff 3 1000 c7Fetch (fun i => "e" ++ toString i)
    (by decide) (fun i h1 h2 => rfl)
  exact ⟨h.2.1, h.2.2.1.trans (by decide), h.2.2.2.trans (congrArg Except.error (by decide))⟩

/-- C8 counterexample: project 1 has two PENDING milestones; after a
MilestoneApproved event for one milestone, the handler has set both of
them to APPROVED, so a milestone other than the matching one did not
keep its previous status. -/
theorem milestoneApproved_updates_all_cex :
    c8Db.milestones.map MilestoneRow.status = ["PENDING", "PENDING", "PENDING"]
  ∧ (milestoneApprovedHandle c8Db c8Ev).1.milestones.map MilestoneRow.status =
      ["APPROVED", "APPROVED", "PENDING"] := by
  exact ⟨by decide, by decide⟩

/-- C8 amended: when the referenced project is missing, both handlers
skip without error; when it exists, MilestoneApproved sets every
milestone of that project to APPROVED and FundsReleased sets every
milestone of that project to FUNDED stamping the event's close time —
in both cases milestones of other projects and all other tables are
unchanged. -/
theorem milestone_handlers_project_scoped (db : Db) (ev : ParsedContractEvent) (pid : Int)
    (hpid : ev.data.projectId = some pid) :
    (findProjectByContractId db (toString pid) = none →
        milestoneApprovedHandle db ev = (db, none)
      ∧ fundsReleasedHandle db ev = (db, none))
  ∧ (∀ p, findProjectByContractId db (toString pid) = some p →
        milestoneApprovedHandle db ev =
          ({ db with milestones := (db.milestones.map (fun m =>
              if m.projectId = p.id then { m with status := "APPROVED" } else m)) }, none)
      ∧ fundsReleasedHandle db ev =
          ({ db with milestones := (db.milestones.map (fun m =>
              if m.projectId = p.id then
                { m with status := "FUNDED", completionDate := some ev.ledgerClosedAt }
              else m)) }, none)
      ∧ (∀ m, m ∈ db.milestones → m.projectId ≠ p.id →
            m ∈ (milestoneApprovedHandle db ev).1.milestones
          ∧ m ∈ (fundsReleasedHandle db ev).1.milestones)) := by
  constructor
  · intro hnone
    constructor
    · simp [milestoneApprovedHandle, hpid, hnone]
    · simp [fundsReleasedHandle, hpid, hnone]
  · intro p hfind
    have ha : milestoneApprovedHandle db ev =
        ({ db with milestones := (db.milestones.map (fun m =>
            if m.projectId = p.id then { m with status := "APPROVED" } else m)) }, none) := by
      simp [milestoneApprovedHandle, hpid, hfind]
    have hb : fundsReleasedHandle db ev =
        ({ db with milestones := (db.milestones.map (fun m =>
            if m.projectId = p.id then
              { m with status := "FUNDED", completionDate := some ev.ledgerClosedAt }
            else m)) }, none) := by
      simp [fundsReleasedHandle, hpid, hfind]
    refine ⟨ha, hb, ?_⟩
    intro m hm hne
    constructor
    · rw [ha]
      have h2 := List.mem_map_of_mem
        (fun m => if m.projectId = p.id then { m with status := "APPROVED" } else m) hm
      dsimp only at h2
      rw [if_neg hne] at h2
      simpa using h2
    · rw [hb]
      have h2 := List.mem_map_of_mem
        (fun m => if m.projectId = p.id then
            { m with status := "FUNDED", completionDate := some ev.ledgerClosedAt }
          else m) hm
      dsimp only at h2
      rw [if_neg hne] at h2
      simpa using h2

/-- Witness for C8 amended at the fixture: both PENDING milestones of
project 1 become APPROVED (resp. FUNDED with the close time) while the
foreign milestone m9 stays untouched. -/
theorem milestone_handlers_project_scoped_witness :
    milestoneApprovedHandle c8Db c8Ev =
      ({ c8Db with milestones :=
          [⟨"m1", "p1", "APPROVED", none⟩, ⟨"m2", "p1", "APPROVED", none⟩,
           ⟨"m9", "pOther", "PENDING", none⟩] }, none)
  ∧ fundsReleasedHandle c8Db c8EvRelease =
      ({ c8Db with milestones :=
          [⟨"m1", "p1", "FUNDED", some "t8b"⟩, ⟨"m2", "p1", "FUNDED", some "t8b"⟩,
           ⟨"m9", "pOther", "PENDING", none⟩] }, none) := by
  have h1 := ((milestone_handlers_project_scoped c8Db c8Ev 1 rfl).2 c8Proj (by decide)).1
  have h2 := ((milestone_handlers_project_scoped c8Db c8EvRelease 1 rfl).2 c8Proj
    (by decide)).2.1
  exact ⟨h1.trans (by decide), h2.trans (by decide)⟩

/-- C9: the failing input is a ContributionMade event carrying
projectId, contributor and amount but no totalRaised, against a store
holding the referenced project: validation passes (totalRaised is not
checked), the handler then raises a TypeError from BigInt(undefined),
and the user and contribution rows written before the raise persist —
the event is neither skipped by validation nor free of domain effects,
contradicting the spec's ValidationFailure contract. -/
theorem contributionMade_missing_totalRaised_bug :
    contributionMadeValidate c9Ev = true
  ∧ (ehProcessEvent c9Db c9Ev).2 = .threw "TypeError: Cannot convert undefined to a BigInt"
  ∧ c9Db.users = []
  ∧ (ehProcessEvent c9Db c9Ev).1.users = [⟨"user:GCONTRIB", "GCONTRIB", 0⟩]
  ∧ c9Db.contributions = []
  ∧ (ehProcessEvent c9Db c9Ev).1.contributions =
      [⟨"tx9", "user:GCONTRIB", "p42", 5, "t9"⟩] := by
  refine ⟨by decide, by decide, by decide, by decide, by decide, by decide⟩

/-- C10: `parseEvent` (a total function, so it never raises) returns
absent exactly when the topic sequence has no first symbol or its first
symbol does not exactly match the event-type enumeration; otherwise the
returned event's data record carries the raw payload, the event id is
propagated, and the event type is the enumeration match of the first
topic symbol. -/
theorem parseEvent_classification (event : SorobanEvent) :
    (parseEvent event = none ↔ (∀ s, event.topic.head? = some s → parseEventType s = none))
  ∧ (∀ p, parseEvent event = some p →
      p.data.rawXdr = some event.value ∧ p.eventId = event.id
      ∧ (∀ s, event.topic.head? = some s → parseEventType s = some p.eventType)) := by
  cases hh : event.topic.head? with
  | none =>
      constructor
      · simp [parseEvent, hh]
      · intro p hp2
        simp [parseEvent, hh] at hp2
  | some s =>
      by_cases hs : s = ""
      · subst hs
        constructor
        · constructor
          · intro _ s' hs'
            cases hs'
            decide
          · intro _
            simp [parseEvent, hh]
        · intro p hp2
          simp [parseEvent, hh] at hp2
      · cases hp : parseEventType s with
        | none =>
            constructor
            · constructor
              · intro _ s' hs'
                cases hs'
                exact hp
              · intro _
                simp [parseEvent, hh, hs, hp]
            · intro p hparse
              simp only [parseEvent, hh] at hparse
              rw [if_neg hs, hp] at hparse
              exact absurd hparse (by simp)
        | some et =>
            constructor
            · constructor
              · intro habs
                simp only [parseEvent, hh] at habs
                rw [if_neg hs, hp] at habs
                simp at habs
              · intro hall
                have h5 := hall s rfl
                exact absurd (hp.symm.trans h5) (by simp)
            · intro p hparse
              simp only [parseEvent, hh] at hparse
              rw [if_neg hs, hp] at hparse
              cases hparse
              refine ⟨rfl, rfl, ?_⟩
              intro s' hs'
              cases hs'
              exact hp

/-- Witness for C10: a raw event with first topic symbol contrib parses
to an event carrying the raw payload VAL and the original event id. -/
theorem parseEvent_classification_witness :
    c10Parsed.data.rawXdr = some "VAL" ∧ c10Parsed.eventId = "id10" := by
  have h := (parseEvent_classification c10Event).2 c10Parsed (by decide)
  exact ⟨h.1, h.2.1⟩
